import Mathlib

/-!
Verification of the HOS (Hours of Service) route-planning core of the
spotter-backend repository: the trip validator and compliance checker
(`routes/services/hos_validator.py`) and the itinerary engine
(`routes/services/route_calculator.py`).

Shallow embedding conventions:
* Python floats are modelled as `ℚ` (all arithmetic in the source is exact
  decimal/half-hour arithmetic, so no floating-point rounding is observable).
* A raw `cycle_hours_used` field (a string in the HTTP payload) is modelled
  as `Option ℚ`: `some q` when `float(...)` succeeds with value `q`, `none`
  when `float(...)` raises `ValueError`.  A raising code path is modelled as
  `Except.error`.
* `datetime` cursors are modelled as rational hours.  The absolute cursor of
  the source is `date * 24 + offset`; `strftime('%I:%M %p')` displays only the
  time-of-day component, which is `clockOf` of the absolute cursor.  Stop
  arrival/departure labels (`"Day 1, 08:00 AM"`) are modelled as a
  day-index / clock pair `TimeLabel`.  (`strftime` truncates to whole minutes;
  every time compared below is minute-aligned, so this is exact.)
* Presentation-only strings of the source (stop `description`, `duration`
  display text, log `remarks`) are not referenced by any verified property
  and are left out of the embedded records.
-/

/-- An HOS regulation parameter set (`HOSRegulation` row; the fields read by
`RouteCalculator.__init__`). -/
structure Regulation where
  max_driving_hours : ℚ
  max_duty_hours : ℚ
  required_rest_hours : ℚ
  cycle_hours : ℚ
  cycle_days : ℕ
  break_required_after : ℚ
  break_duration : ℚ

/-- The fallback values hard-coded in `RouteCalculator.__init__` for the case
where no active `HOSRegulation` row exists (11 h driving, 14 h duty, 10 h
rest, 70 h / 8-day cycle, break after 8 h, 0.5 h break).  These coincide with
the row created by the `seed_hos_regulations` management command. -/
def defaultRegulation : Regulation :=
  { max_driving_hours := 11
    max_duty_hours := 14
    required_rest_hours := 10
    cycle_hours := 70
    cycle_days := 8
    break_required_after := 8
    break_duration := 1/2 }

/-- `RouteCalculator.__init__`: `HOSRegulation.objects.filter(is_active=True).first()`
either yields an active row (`some r`) or `None`; in the latter case the
constructor silently installs `defaultRegulation` instead of failing. -/
def loadRegulation : Option Regulation → Regulation
  | none => defaultRegulation
  | some r => r

/-- The dictionary returned by `_get_route_coordinates`.  Distances are miles,
durations are seconds (`ℕ`, as in the source literals).  The three
`*_location` keys are absent from the dictionary the source builds, hence
`Option String` (read back with `.get(key, default)`). -/
structure RouteData where
  start_to_pickup_distance : ℚ
  start_to_pickup_duration : ℕ
  pickup_to_dropoff_distance : ℚ
  pickup_to_dropoff_duration : ℕ
  total_distance : ℚ
  total_duration : ℕ
  total_duration_text : String
  start_location : Option String
  pickup_location : Option String
  dropoff_location : Option String

/-- `_get_route_coordinates(start, pickup, dropoff)`: simulates the Mapbox
response with fixed data; the three arguments are ignored entirely. -/
def get_route_coordinates (_start _pickup _dropoff : String) : RouteData :=
  let start_to_pickup_distance : ℚ := 120
  let start_to_pickup_duration : ℕ := 7200
  let pickup_to_dropoff_distance : ℚ := 630
  let pickup_to_dropoff_duration : ℕ := 34200
  let total_distance := start_to_pickup_distance + pickup_to_dropoff_distance
  let total_duration := start_to_pickup_duration + pickup_to_dropoff_duration
  let days := total_duration / 86400
  let hours := (total_duration % 86400) / 3600
  let total_duration_text :=
    if 0 < days then toString days ++ " days, " ++ toString hours ++ " hours"
    else toString hours ++ " hours"
  { start_to_pickup_distance := start_to_pickup_distance
    start_to_pickup_duration := start_to_pickup_duration
    pickup_to_dropoff_distance := pickup_to_dropoff_distance
    pickup_to_dropoff_duration := pickup_to_dropoff_duration
    total_distance := total_distance
    total_duration := total_duration
    total_duration_text := total_duration_text
    start_location := none
    pickup_location := none
    dropoff_location := none }

/-- Time-of-day extraction: `datetime.time()` of an absolute cursor measured
in rational hours is its value reduced modulo 24. -/
def clockOf (t : ℚ) : ℚ := t - 24 * (⌊t / 24⌋ : ℚ)

/-- A displayed stop time `"Day d, HH:MM AM/PM"`: the hard-coded day index
together with the time of day (in hours) shown by `strftime('%I:%M %p')`. -/
structure TimeLabel where
  day : ℕ
  clock : ℚ

/-- Build the label for day `day` from a day-base absolute time (midnight of
the date used by `datetime.combine`) plus an offset cursor in hours. -/
def dayTime (day : ℕ) (base offset : ℚ) : TimeLabel :=
  ⟨day, clockOf (base + offset)⟩

/-- The `type` discriminator of a generated stop. -/
inductive StopKind where
  | start | pickup | rest | fuel | overnight | dropoff
  deriving DecidableEq

/-- A stop dictionary as appended by `_calculate_stops` (presentation-only
`description`/`duration` strings omitted, see module comment). -/
structure Stop where
  kind : StopKind
  location : String
  arrival : TimeLabel
  departure : TimeLabel
  mileage : ℚ

/-- `_calculate_stops(route_data, cycle_hours_used)`.

`nowDate` is the calendar date returned by `datetime.datetime.now()` at the
start of the computation, counted in whole days; the source combines it with
fixed clock times (08:00 on day 1, 06:00 on day 2), so the absolute cursor is
`nowDate * 24 + offset` hours.  `cycle_hours_used` is accepted but never read,
exactly as in the source. -/
def calculate_stops (reg : Regulation) (nowDate : ℤ) (route_data : RouteData)
    (cycle_hours_used : ℚ) : List Stop :=
  let base : ℚ := (nowDate : ℚ) * 24
  -- Starting point: 08:00 AM, 30-minute pre-trip inspection
  let t0 : ℚ := 8
  let startStop : Stop :=
    { kind := .start
      location := route_data.start_location.getD "Starting Point"
      arrival := dayTime 1 base t0
      departure := dayTime 1 base (t0 + 1/2)
      mileage := 0 }
  let t1 := t0 + 1/2
  -- Pickup: drive start→pickup, then 1 hour loading
  let driving_time_to_pickup : ℚ := (route_data.start_to_pickup_duration : ℚ) / 3600
  let t2 := t1 + driving_time_to_pickup
  let pickupStop : Stop :=
    { kind := .pickup
      location := route_data.pickup_location.getD "Pickup Point"
      arrival := dayTime 1 base t2
      departure := dayTime 1 base (t2 + 1)
      mileage := route_data.start_to_pickup_distance }
  let t3 := t2 + 1
  let hours_used_so_far := driving_time_to_pickup + 3/2
  let remaining0 := min (reg.max_driving_hours - driving_time_to_pickup)
                        (reg.max_duty_hours - hours_used_so_far)
  -- Break rule: only if the drive to pickup already reached the threshold
  let afterBreak : List Stop × ℚ × ℚ :=
    if reg.break_required_after ≤ driving_time_to_pickup then
      let ta := t3 + 2
      let restStop : Stop :=
        { kind := .rest
          location := "Rest Area - Highway 70"
          arrival := dayTime 1 base ta
          departure := dayTime 1 base (ta + reg.break_duration)
          mileage := route_data.start_to_pickup_distance + 120 }
      ([restStop], ta + reg.break_duration, remaining0 - (2 + reg.break_duration))
    else ([], t3, remaining0)
  let t4 := afterBreak.2.1
  let remaining1 := afterBreak.2.2
  -- Fuel stop once total distance exceeds 400 miles
  let afterFuel : List Stop × ℚ × ℚ :=
    if 400 < route_data.total_distance then
      let tb := t4 + 3
      let fuelStop : Stop :=
        { kind := .fuel
          location := "Truck Stop - Junction City"
          arrival := dayTime 1 base tb
          departure := dayTime 1 base (tb + 1)
          mileage := route_data.start_to_pickup_distance + 240 }
      ([fuelStop], tb + 1, remaining1 - (3 + 1))
    else ([], t4, remaining1)
  let t5 := afterFuel.2.1
  let remaining2 := afterFuel.2.2
  -- Overnight stop after the remaining driving hours of day 1
  let t6 := t5 + remaining2
  let overnightStop : Stop :=
    { kind := .overnight
      location := "Truck Stop - Riverside"
      arrival := dayTime 1 base t6
      departure := ⟨2, 6⟩  -- hard-coded "Day 2, 06:00 AM"
      mileage := route_data.start_to_pickup_distance + 380 }
  -- Day 2 starts at 06:00 AM of the next calendar date
  let base2 : ℚ := ((nowDate : ℚ) + 1) * 24
  let t7 : ℚ := 6
  let remaining_distance := route_data.total_distance - 380
  let afterRest2 : List Stop × ℚ :=
    if 250 < remaining_distance then
      let tc := t7 + 4
      let rest2Stop : Stop :=
        { kind := .rest
          location := "Rest Area - Highway 40"
          arrival := dayTime 2 base2 tc
          departure := dayTime 2 base2 (tc + reg.break_duration)
          mileage := 620 }
      ([rest2Stop], tc + reg.break_duration)
    else ([], t7)
  let t8 := afterRest2.2
  -- Dropoff after 3 more hours of driving, 1 hour unloading
  let td := t8 + 3
  let dropoffStop : Stop :=
    { kind := .dropoff
      location := route_data.dropoff_location.getD "Dropoff Point"
      arrival := dayTime 2 base2 td
      departure := dayTime 2 base2 (td + 1)
      mileage := route_data.total_distance }
  [startStop, pickupStop] ++ afterBreak.1 ++ afterFuel.1 ++ [overnightStop]
    ++ afterRest2.1 ++ [dropoffStop]

/-- The `type` discriminator of a duty-status activity. -/
inductive ActivityKind where
  | offDuty | sleeperBerth | driving | onDutyNotDriving
  deriving DecidableEq

/-- An activity dictionary as appended by `_create_daily_log`.  The source's
`"HH:MM"` strings are modelled as minutes since midnight (`"24:00"` = 1440);
`_calculate_hours` parses them back to exactly these minute counts. -/
structure Activity where
  kind : ActivityKind
  startTime : ℕ
  endTime : ℕ
  location : String

/-- `_calculate_hours(start_time, end_time)`: difference of the two clock
times in fractional hours, adding 24 h when the interval crosses midnight. -/
def calculate_hours (start_minutes end_minutes : ℕ) : ℚ :=
  let end_adjusted := if end_minutes < start_minutes then end_minutes + 24 * 60
                      else end_minutes
  ((end_adjusted : ℚ) - (start_minutes : ℚ)) / 60

/-- The `totalHours` summary of a daily log.  The source formats each value
with `"%.1f"`; `roundTenth` models that formatting. -/
structure TotalHours where
  offDuty : ℚ
  sleeperBerth : ℚ
  driving : ℚ
  onDutyNotDriving : ℚ

/-- Rounding to one decimal place, the numeric effect of the `"%.1f"`
format applied to the hour totals (all totals the engine produces are exact
multiples of 0.5, on which the formatting is exact). -/
def roundTenth (q : ℚ) : ℚ := (round (q * 10) : ℚ) / 10

/-- A daily log dictionary as returned by `_create_daily_log` (the free-text
`remarks` list is presentation-only and omitted, see module comment). -/
structure DailyLog where
  date : String
  startLocation : String
  endLocation : String
  totalMiles : ℚ
  shippingDocuments : String
  activities : List Activity
  totalHours : TotalHours

/-- `stops[i]` for the location reads of `_create_daily_log`.  Python raises
`IndexError` out of range; every generated stop list indexed here has the
required length (day 1 always holds start/pickup/fuel/overnight with the
fixed simulated route), so the `""` default is never produced. -/
def locAt (stops : List Stop) (i : ℕ) : String :=
  ((stops.map Stop.location).getD i "")

/-- `stops[-1]['location']`. -/
def lastLoc (stops : List Stop) : String :=
  ((stops.getLast?).map Stop.location).getD ""

/-- `stops[-1]['mileage']`. -/
def lastMileage (stops : List Stop) : ℚ :=
  ((stops.getLast?).map Stop.mileage).getD 0

/-- The fixed day-1 activity timeline of `_create_daily_log` (times as
minutes since midnight; the stops influence only `location` strings). -/
def day1Activities (start_location : String) (stops : List Stop) : List Activity :=
  [⟨.offDuty, 0, 480, start_location⟩,
   ⟨.onDutyNotDriving, 480, 510, start_location⟩,
   ⟨.driving, 510, 630, "En route to pickup"⟩,
   ⟨.onDutyNotDriving, 630, 690, locAt stops 1⟩,
   ⟨.driving, 690, 810, "En route"⟩,
   ⟨.offDuty, 810, 840, locAt stops 2⟩,
   ⟨.driving, 840, 990, "En route"⟩,
   ⟨.onDutyNotDriving, 990, 1050, locAt stops 3⟩,
   ⟨.driving, 1050, 1200, "En route"⟩,
   ⟨.sleeperBerth, 1200, 1440, lastLoc stops⟩]

/-- The fixed day-2 activity timeline of `_create_daily_log`. -/
def day2Activities (stops : List Stop) : List Activity :=
  [⟨.sleeperBerth, 0, 360, locAt stops 0⟩,
   ⟨.onDutyNotDriving, 360, 390, locAt stops 0⟩,
   ⟨.driving, 390, 600, "En route"⟩,
   ⟨.offDuty, 600, 630, if 1 < stops.length then locAt stops 1 else "Rest Area"⟩,
   ⟨.driving, 630, 810, "En route to delivery"⟩,
   ⟨.onDutyNotDriving, 810, 870, lastLoc stops⟩,
   ⟨.offDuty, 870, 1440, lastLoc stops⟩]

/-- `sum(self._calculate_hours(...) for activity in activities if
activity['type'] == k)`: total duration of the activities of one type. -/
def hoursByKind (activities : List Activity) (k : ActivityKind) : ℚ :=
  ((activities.filter (fun a => a.kind = k)).map
      (fun a => calculate_hours a.startTime a.endTime)).sum

/-- The `totalHours` block of `_create_daily_log`: per-type totals, each
formatted with `"%.1f"`. -/
def totalHoursOf (activities : List Activity) : TotalHours :=
  { offDuty := roundTenth (hoursByKind activities .offDuty)
    sleeperBerth := roundTenth (hoursByKind activities .sleeperBerth)
    driving := roundTenth (hoursByKind activities .driving)
    onDutyNotDriving := roundTenth (hoursByKind activities .onDutyNotDriving) }

/-- `_create_daily_log(date, start_location, end_location, total_miles,
stops, day_number)`: the activity timeline is fixed per day number (the
stops influence only the `location` strings of some activities), and the
four totals are the per-type sums of the activity durations. -/
def create_daily_log (date start_location end_location : String)
    (total_miles : ℚ) (stops : List Stop) (day_number : ℕ) : DailyLog :=
  let activities : List Activity :=
    if day_number = 1 then day1Activities start_location stops
    else if day_number = 2 then day2Activities stops
    else []
  { date := date
    startLocation := start_location
    endLocation := end_location
    totalMiles := total_miles
    shippingDocuments := "BOL-12345"
    activities := activities
    totalHours := totalHoursOf activities }

/-- `_generate_logs(stops, cycle_hours_used)`: group stops by the day index
of their arrival label and build one log per non-empty day. -/
def generate_logs (stops : List Stop) (cycle_hours_used : ℚ) : List DailyLog :=
  let day_1_stops := stops.filter (fun s => s.arrival.day = 1)
  let day_2_stops := stops.filter (fun s => s.arrival.day = 2)
  let logs1 : List DailyLog :=
    if day_1_stops.isEmpty then []
    else [create_daily_log "04/15/2023" (locAt day_1_stops 0) (lastLoc day_1_stops)
            (lastMileage day_1_stops) day_1_stops 1]
  let logs2 : List DailyLog :=
    if day_2_stops.isEmpty then []
    else [create_daily_log "04/16/2023" (locAt day_2_stops 0) (lastLoc day_2_stops)
            (if day_1_stops.isEmpty then lastMileage day_2_stops
             else lastMileage day_2_stops - lastMileage day_1_stops)
            day_2_stops 2]
  logs1 ++ logs2

/-- The complete route dictionary returned by `calculate_route`. -/
structure RouteResult where
  startLocation : String
  endLocation : String
  totalDistance : ℚ
  totalDuration : String
  stops : List Stop
  logs : List DailyLog

/-- `calculate_route(trip_details)` after the successful
`float(trip_details['cycle_hours_used'])` conversion, with the regulation
loaded at construction time and the `datetime.now()` date made explicit. -/
def calculate_route (reg : Regulation) (nowDate : ℤ)
    (current_location pickup_location dropoff_location : String)
    (cycle_hours_used : ℚ) : RouteResult :=
  let route_data := get_route_coordinates current_location pickup_location dropoff_location
  let stops := calculate_stops reg nowDate route_data cycle_hours_used
  let logs := generate_logs stops cycle_hours_used
  { startLocation := current_location
    endLocation := dropoff_location
    totalDistance := route_data.total_distance
    totalDuration := route_data.total_duration_text
    stops := stops
    logs := logs }

/-- A raw trip-details dictionary.  `cycle_hours_used` arrives as a string:
`some q` models a string `float()` parses to `q`, `none` one it rejects. -/
structure TripDetails where
  current_location : String
  pickup_location : String
  dropoff_location : String
  cycle_hours_used : Option ℚ

/-- `float(trip_details['cycle_hours_used'])`: raises `ValueError` on an
unparseable string, modelled as `Except.error`. -/
def parseCycleHours : Option ℚ → Except String ℚ
  | none => .error "could not convert string to float"
  | some q => .ok q

/-- `calculate_route` on a raw trip-details dictionary: the `float()` call on
line 53 happens before any route work, so an unparseable `cycle_hours_used`
raises out of the method. -/
def calculate_route_raw (reg : Regulation) (nowDate : ℤ)
    (trip_details : TripDetails) : Except String RouteResult := do
  let chu ← parseCycleHours trip_details.cycle_hours_used
  pure (calculate_route reg nowDate trip_details.current_location
    trip_details.pickup_location trip_details.dropoff_location chu)

/-- The dictionary returned by `HOSValidator.validate_trip`; `errors` keeps
the source's insertion order of the (field, message) pairs. -/
structure ValidationResult where
  valid : Bool
  errors : List (String × String)

/-- The body of `HOSValidator.validate_trip` after the successful `float()`
conversion of `cycle_hours_used`: all four checks run independently and the
result is valid iff no error was recorded. -/
def validate_trip_checked (cycle_hours_used : ℚ)
    (current_location pickup_location dropoff_location : String) : ValidationResult :=
  let errors : List (String × String) :=
    (if cycle_hours_used < 0 ∨ 70 < cycle_hours_used then
      [("cycle_hours_used", "Cycle hours used must be between 0 and 70.")] else [])
    ++ (if current_location = "" then
      [("current_location", "Current location is required.")] else [])
    ++ (if pickup_location = "" then
      [("pickup_location", "Pickup location is required.")] else [])
    ++ (if dropoff_location = "" then
      [("dropoff_location", "Dropoff location is required.")] else [])
  { valid := errors.isEmpty, errors := errors }

/-- `HOSValidator.validate_trip(trip_details)`: line 20 converts
`cycle_hours_used` with `float()` before any check, so an unparseable value
raises `ValueError` instead of producing a validation result. -/
def validate_trip (trip_details : TripDetails) : Except String ValidationResult := do
  let chu ← parseCycleHours trip_details.cycle_hours_used
  pure (validate_trip_checked chu trip_details.current_location
    trip_details.pickup_location trip_details.dropoff_location)

/-- The `route_data` argument of `check_hos_compliance`: a dictionary that
may or may not carry a `'logs'` entry (read with `.get('logs', [])`). -/
structure ComplianceInput where
  logs : Option (List DailyLog)

/-- The dictionary returned by `check_hos_compliance`. -/
structure ComplianceResult where
  isCompliant : Bool
  cycleHoursUsed : ℚ
  tripDrivingHours : ℚ
  tripOnDutyHours : ℚ
  cycleHoursRemaining : ℚ
  cycleHoursUsedPercentage : ℚ

/-- `HOSValidator.check_hos_compliance(route_data, cycle_hours_used)`: sums
driving and on-duty totals over the logs (defaulting to no logs), compares
the unclamped remainder of the fixed 70-hour cycle against 0, and returns
the clamped remainder. -/
def check_hos_compliance (route_data : ComplianceInput)
    (cycle_hours_used : ℚ) : ComplianceResult :=
  let logs := route_data.logs.getD []
  let total_driving_hours :=
    logs.foldl (fun acc log => acc + log.totalHours.driving) 0
  let total_on_duty_hours :=
    logs.foldl (fun acc log =>
      acc + (log.totalHours.driving + log.totalHours.onDutyNotDriving)) 0
  let cycle_hours_remaining := 70 - (cycle_hours_used + total_on_duty_hours)
  { isCompliant := decide (0 ≤ cycle_hours_remaining)
    cycleHoursUsed := cycle_hours_used
    tripDrivingHours := total_driving_hours
    tripOnDutyHours := total_on_duty_hours
    cycleHoursRemaining := max 0 cycle_hours_remaining
    cycleHoursUsedPercentage :=
      min 100 ((cycle_hours_used + total_on_duty_hours) / 70 * 100) }

/-- The fixed route dictionary every call of `_get_route_coordinates`
produces: 120 mi / 2 h to pickup, 630 mi / 9.5 h to dropoff, 750 mi total. -/
def simulatedRoute : RouteData :=
  { start_to_pickup_distance := 120
    start_to_pickup_duration := 7200
    pickup_to_dropoff_distance := 630
    pickup_to_dropoff_duration := 34200
    total_distance := 750
    total_duration := 41400
    total_duration_text := "11 hours"
    start_location := none
    pickup_location := none
    dropoff_location := none }

/-- The four `totalHours` entries of a daily log sum to exactly 24 hours. -/
def sum24b (log : DailyLog) : Bool :=
  decide (log.totalHours.offDuty + log.totalHours.sleeperBerth
    + log.totalHours.driving + log.totalHours.onDutyNotDriving = 24)

/-- The validation result records an error under the given field key. -/
def hasError (r : ValidationResult) (field : String) : Bool :=
  (r.errors.map Prod.fst).contains field

/-- Sum of the `driving` totals across a list of daily logs. -/
def tripDrivingSum (logs : List DailyLog) : ℚ :=
  (logs.map (fun log => log.totalHours.driving)).sum

/-- Sum of the `driving` plus `onDutyNotDriving` totals across a list of
daily logs. -/
def tripOnDutySum (logs : List DailyLog) : ℚ :=
  (logs.map (fun log => log.totalHours.driving + log.totalHours.onDutyNotDriving)).sum

/-- Order on displayed stop times: earlier day, or same day and
less-or-equal clock time. -/
def timeLEb (a b : TimeLabel) : Bool :=
  decide (a.day < b.day) || (decide (a.day = b.day) && decide (a.clock ≤ b.clock))

/-- Arrival labels are non-decreasing along the stop sequence. -/
def arrivalsMonoB : List Stop → Bool
  | a :: b :: rest => timeLEb a.arrival b.arrival && arrivalsMonoB (b :: rest)
  | _ => true

/-- Every stop departs no earlier than it arrives. -/
def depGeArrB (stops : List Stop) : Bool :=
  stops.all fun s => timeLEb s.arrival s.departure

/-- An active regulation row with a 60-hour cycle limit (all hour fields
positive, as the data model requires); legal configuration data that differs
from the 70-hour default only in the cycle cap. -/
def reducedCycleRegulation : Regulation :=
  { defaultRegulation with cycle_hours := 60 }

/-- An active regulation row with a 1-hour daily driving limit (all hour
fields positive); under it the day-1 remaining driving time is negative. -/
def shortShiftRegulation : Regulation :=
  { defaultRegulation with max_driving_hours := 1 }

/-- The stop sequence `_calculate_stops` produces under the default
regulation with the fixed simulated route (clock values in hours):
no day-1 break (the 2 h drive to pickup is below the 8 h threshold),
a fuel stop (750 mi > 400 mi), and a day-2 rest (370 mi remaining > 250). -/
def defaultStops : List Stop :=
  [⟨.start, "Starting Point", ⟨1, 8⟩, ⟨1, 17/2⟩, 0⟩,
   ⟨.pickup, "Pickup Point", ⟨1, 21/2⟩, ⟨1, 23/2⟩, 120⟩,
   ⟨.fuel, "Truck Stop - Junction City", ⟨1, 29/2⟩, ⟨1, 31/2⟩, 360⟩,
   ⟨.overnight, "Truck Stop - Riverside", ⟨1, 41/2⟩, ⟨2, 6⟩, 500⟩,
   ⟨.rest, "Rest Area - Highway 40", ⟨2, 10⟩, ⟨2, 21/2⟩, 620⟩,
   ⟨.dropoff, "Dropoff Point", ⟨2, 27/2⟩, ⟨2, 29/2⟩, 750⟩]

/-- The stop sequence produced under `shortShiftRegulation`: the remaining
driving time after the fuel stop is `min (1 - 2) (14 - 3.5) - 4 = -5` hours,
so the overnight arrival (10:30 AM) precedes the fuel arrival (2:30 PM). -/
def shortStops : List Stop :=
  [⟨.start, "Starting Point", ⟨1, 8⟩, ⟨1, 17/2⟩, 0⟩,
   ⟨.pickup, "Pickup Point", ⟨1, 21/2⟩, ⟨1, 23/2⟩, 120⟩,
   ⟨.fuel, "Truck Stop - Junction City", ⟨1, 29/2⟩, ⟨1, 31/2⟩, 360⟩,
   ⟨.overnight, "Truck Stop - Riverside", ⟨1, 21/2⟩, ⟨2, 6⟩, 500⟩,
   ⟨.rest, "Rest Area - Highway 40", ⟨2, 10⟩, ⟨2, 21/2⟩, 620⟩,
   ⟨.dropoff, "Dropoff Point", ⟨2, 27/2⟩, ⟨2, 29/2⟩, 750⟩]

/-- All location strings `_calculate_stops` can ever emit: the hard-coded
defaults for the start/pickup/dropoff keys the simulated route dictionary
lacks, plus the fixed rest/fuel/overnight names. -/
def placeholderNames : List String :=
  ["Starting Point", "Pickup Point", "Rest Area - Highway 70",
   "Truck Stop - Junction City", "Truck Stop - Riverside",
   "Rest Area - Highway 40", "Dropoff Point"]

/-! ## Helper lemmas -/

/-- Extracting the time of day is invariant under shifting the absolute time
by a whole number of days. -/
lemma clockOf_shift (d : ℤ) (c : ℚ) : clockOf ((d : ℚ) * 24 + c) = clockOf c := by
  unfold clockOf
  have h : ((d : ℚ) * 24 + c) / 24 = (d : ℚ) + c / 24 := by ring
  rw [h, Int.floor_int_add]
  push_cast
  ring

lemma dayTime_shift (day : ℕ) (d : ℤ) (c : ℚ) :
    dayTime day ((d : ℚ) * 24) c = ⟨day, clockOf c⟩ := by
  unfold dayTime
  rw [clockOf_shift]

lemma dayTime_shift_succ (day : ℕ) (d : ℤ) (c : ℚ) :
    dayTime day (((d : ℚ) + 1) * 24) c = ⟨day, clockOf c⟩ := by
  unfold dayTime
  have h : ((d : ℚ) + 1) * 24 + c = ((d + 1 : ℤ) : ℚ) * 24 + c := by push_cast; ring
  rw [h, clockOf_shift]

lemma clockOf_of_lt (c : ℚ) (h0 : 0 ≤ c) (h1 : c < 24) : clockOf c = c := by
  unfold clockOf
  have hf : ⌊c / 24⌋ = 0 := by
    rw [Int.floor_eq_zero_iff]
    constructor
    · positivity
    · rw [div_lt_one (by norm_num : (0:ℚ) < 24)]; exact h1
  rw [hf]
  ring

lemma get_route_coordinates_eq (a b c : String) :
    get_route_coordinates a b c = simulatedRoute := by
  simp only [get_route_coordinates, simulatedRoute, RouteData.mk.injEq]
  norm_num
  decide

lemma calculate_stops_default_eq (d : ℤ) (chu : ℚ) :
    calculate_stops defaultRegulation d simulatedRoute chu = defaultStops := by
  simp only [calculate_stops, dayTime_shift, dayTime_shift_succ, simulatedRoute,
    defaultRegulation]
  norm_num [clockOf_of_lt, defaultStops]

lemma calculate_stops_short_eq (d : ℤ) (chu : ℚ) :
    calculate_stops shortShiftRegulation d simulatedRoute chu = shortStops := by
  simp only [calculate_stops, dayTime_shift, dayTime_shift_succ, simulatedRoute,
    shortShiftRegulation, defaultRegulation]
  norm_num [clockOf_of_lt, shortStops]

lemma calculate_stops_reduced_eq (d : ℤ) (chu : ℚ) :
    calculate_stops reducedCycleRegulation d simulatedRoute chu = defaultStops := by
  simp only [calculate_stops, dayTime_shift, dayTime_shift_succ, simulatedRoute,
    reducedCycleRegulation, defaultRegulation]
  norm_num [clockOf_of_lt, defaultStops]

lemma roundTenth_int (q : ℚ) (n : ℤ) (h : q * 10 = (n : ℚ)) : roundTenth q = q := by
  unfold roundTenth
  rw [h, round_intCast, ← h]
  ring

lemma day1_hours_offDuty (sl : String) (stops : List Stop) :
    hoursByKind (day1Activities sl stops) .offDuty = 17/2 := by
  have h : hoursByKind (day1Activities sl stops) .offDuty
      = ([calculate_hours 0 480, calculate_hours 810 840] : List ℚ).sum := rfl
  rw [h]
  norm_num [calculate_hours, List.sum_cons, List.sum_nil]

lemma day1_hours_sleeper (sl : String) (stops : List Stop) :
    hoursByKind (day1Activities sl stops) .sleeperBerth = 4 := by
  have h : hoursByKind (day1Activities sl stops) .sleeperBerth
      = ([calculate_hours 1200 1440] : List ℚ).sum := rfl
  rw [h]
  norm_num [calculate_hours, List.sum_cons, List.sum_nil]

lemma day1_hours_driving (sl : String) (stops : List Stop) :
    hoursByKind (day1Activities sl stops) .driving = 9 := by
  have h : hoursByKind (day1Activities sl stops) .driving
      = ([calculate_hours 510 630, calculate_hours 690 810, calculate_hours 840 990, calculate_hours 1050 1200] : List ℚ).sum := rfl
  rw [h]
  norm_num [calculate_hours, List.sum_cons, List.sum_nil]

lemma day1_hours_onDuty (sl : String) (stops : List Stop) :
    hoursByKind (day1Activities sl stops) .onDutyNotDriving = 5/2 := by
  have h : hoursByKind (day1Activities sl stops) .onDutyNotDriving
      = ([calculate_hours 480 510, calculate_hours 630 690, calculate_hours 990 1050] : List ℚ).sum := rfl
  rw [h]
  norm_num [calculate_hours, List.sum_cons, List.sum_nil]

lemma day2_hours_offDuty (stops : List Stop) :
    hoursByKind (day2Activities stops) .offDuty = 10 := by
  have h : hoursByKind (day2Activities stops) .offDuty
      = ([calculate_hours 600 630, calculate_hours 870 1440] : List ℚ).sum := rfl
  rw [h]
  norm_num [calculate_hours, List.sum_cons, List.sum_nil]

lemma day2_hours_sleeper (stops : List Stop) :
    hoursByKind (day2Activities stops) .sleeperBerth = 6 := by
  have h : hoursByKind (day2Activities stops) .sleeperBerth
      = ([calculate_hours 0 360] : List ℚ).sum := rfl
  rw [h]
  norm_num [calculate_hours, List.sum_cons, List.sum_nil]

lemma day2_hours_driving (stops : List Stop) :
    hoursByKind (day2Activities stops) .driving = 13/2 := by
  have h : hoursByKind (day2Activities stops) .driving
      = ([calculate_hours 390 600, calculate_hours 630 810] : List ℚ).sum := rfl
  rw [h]
  norm_num [calculate_hours, List.sum_cons, List.sum_nil]

lemma day2_hours_onDuty (stops : List Stop) :
    hoursByKind (day2Activities stops) .onDutyNotDriving = 3/2 := by
  have h : hoursByKind (day2Activities stops) .onDutyNotDriving
      = ([calculate_hours 360 390, calculate_hours 810 870] : List ℚ).sum := rfl
  rw [h]
  norm_num [calculate_hours, List.sum_cons, List.sum_nil]

lemma totalHoursOf_day1 (sl : String) (stops : List Stop) :
    totalHoursOf (day1Activities sl stops) = ⟨17/2, 4, 9, 5/2⟩ := by
  rw [totalHoursOf, day1_hours_offDuty, day1_hours_sleeper, day1_hours_driving,
    day1_hours_onDuty, roundTenth_int (17/2) 85 (by norm_num),
    roundTenth_int 4 40 (by norm_num), roundTenth_int 9 90 (by norm_num),
    roundTenth_int (5/2) 25 (by norm_num)]

lemma totalHoursOf_day2 (stops : List Stop) :
    totalHoursOf (day2Activities stops) = ⟨10, 6, 13/2, 3/2⟩ := by
  rw [totalHoursOf, day2_hours_offDuty, day2_hours_sleeper, day2_hours_driving,
    day2_hours_onDuty, roundTenth_int 10 100 (by norm_num),
    roundTenth_int 6 60 (by norm_num), roundTenth_int (13/2) 65 (by norm_num),
    roundTenth_int (3/2) 15 (by norm_num)]

lemma create_daily_log_day1_totals (date sl el : String) (tm : ℚ) (stops : List Stop) :
    (create_daily_log date sl el tm stops 1).totalHours = ⟨17/2, 4, 9, 5/2⟩ := by
  have h : (create_daily_log date sl el tm stops 1).totalHours
      = totalHoursOf (day1Activities sl stops) := rfl
  rw [h, totalHoursOf_day1]

lemma create_daily_log_day2_totals (date sl el : String) (tm : ℚ) (stops : List Stop) :
    (create_daily_log date sl el tm stops 2).totalHours = ⟨10, 6, 13/2, 3/2⟩ := by
  have h : (create_daily_log date sl el tm stops 2).totalHours
      = totalHoursOf (day2Activities stops) := rfl
  rw [h, totalHoursOf_day2]

lemma sum24b_day1 (date sl el : String) (tm : ℚ) (stops : List Stop) :
    sum24b (create_daily_log date sl el tm stops 1) = true := by
  simp only [sum24b, create_daily_log_day1_totals]
  norm_num

lemma sum24b_day2 (date sl el : String) (tm : ℚ) (stops : List Stop) :
    sum24b (create_daily_log date sl el tm stops 2) = true := by
  simp only [sum24b, create_daily_log_day2_totals]
  norm_num

lemma generate_logs_all_sum24 (stops : List Stop) (chu : ℚ) :
    (generate_logs stops chu).all sum24b = true := by
  unfold generate_logs
  by_cases h1 : (stops.filter (fun s => s.arrival.day = 1)).isEmpty <;>
    by_cases h2 : (stops.filter (fun s => s.arrival.day = 2)).isEmpty <;>
      simp [h1, h2, sum24b_day1, sum24b_day2]

lemma generate_logs_default_driving (chu : ℚ) :
    (generate_logs defaultStops chu).map (fun log => log.totalHours.driving) = [9, 13/2] := by
  simp [generate_logs, defaultStops, List.filter, create_daily_log_day1_totals,
    create_daily_log_day2_totals]

lemma generate_logs_default_onduty (chu : ℚ) :
    tripOnDutySum (generate_logs defaultStops chu) = 39/2 := by
  simp [generate_logs, defaultStops, List.filter, tripOnDutySum,
    create_daily_log_day1_totals, create_daily_log_day2_totals]
  norm_num

lemma foldl_add_map (f : DailyLog → ℚ) (logs : List DailyLog) (init : ℚ) :
    logs.foldl (fun acc log => acc + f log) init = init + (logs.map f).sum := by
  induction logs generalizing init with
  | nil => simp
  | cons l ls ih => simp [ih, add_assoc]

lemma check_hos_compliance_some (logs : List DailyLog) (chu : ℚ) :
    check_hos_compliance ⟨some logs⟩ chu =
      { isCompliant := decide (0 ≤ 70 - (chu + tripOnDutySum logs))
        cycleHoursUsed := chu
        tripDrivingHours := tripDrivingSum logs
        tripOnDutyHours := tripOnDutySum logs
        cycleHoursRemaining := max 0 (70 - (chu + tripOnDutySum logs))
        cycleHoursUsedPercentage := min 100 ((chu + tripOnDutySum logs) / 70 * 100) } := by
  unfold check_hos_compliance tripDrivingSum tripOnDutySum
  simp [foldl_add_map]

/-! ## Claim theorems -/

/-- Claim C1, counterexample: the claim reads the cycle limit from the
active regulation profile, but `check_hos_compliance` hard-codes 70.  With
an active profile whose cycle limit is 60 hours, the generated two-day log
set (19.5 on-duty hours) and `cycleHoursUsed = 45`, the checker returns
`cycleHoursRemaining = 5.5` while the claimed formula gives
`max 0 (60 - 64.5) = 0`, and it reports `isCompliant = true` although the
profile-based unclamped remainder is negative. -/
theorem compliance_ignores_profile_cex :
    (check_hos_compliance
        ⟨some (calculate_route reducedCycleRegulation 0 "A" "B" "C" 45).logs⟩ 45).cycleHoursRemaining
      ≠ max 0 (reducedCycleRegulation.cycle_hours
          - (45 + tripOnDutySum (calculate_route reducedCycleRegulation 0 "A" "B" "C" 45).logs)) ∧
    (check_hos_compliance
        ⟨some (calculate_route reducedCycleRegulation 0 "A" "B" "C" 45).logs⟩ 45).isCompliant = true ∧
    reducedCycleRegulation.cycle_hours
      - (45 + tripOnDutySum (calculate_route reducedCycleRegulation 0 "A" "B" "C" 45).logs) < 0 := by
  have hlogs : (calculate_route reducedCycleRegulation 0 "A" "B" "C" 45).logs
      = generate_logs defaultStops 45 := by
    simp only [calculate_route, get_route_coordinates_eq, calculate_stops_reduced_eq]
  rw [hlogs, check_hos_compliance_some, generate_logs_default_onduty]
  refine ⟨?_, ?_, ?_⟩
  · norm_num [reducedCycleRegulation, defaultRegulation]
  · norm_num
  · norm_num [reducedCycleRegulation, defaultRegulation]

/-- Claim C1, amended: for every log set and every `cycleHoursUsed`, the
compliance checker returns `cycleHoursRemaining =
max(0, 70 - (cycleHoursUsed + tripOnDutyHours))` where 70 is the checker's
fixed cycle constant (it does not read the active profile's cycle limit)
and `tripOnDutyHours` is the sum of driving plus onDutyNotDriving totals
across all logs; the returned `cycleHoursRemaining` is never negative, and
`isCompliant` is true iff the unclamped remainder
`70 - (cycleHoursUsed + tripOnDutyHours)` is non-negative. -/
theorem compliance_formula_fixed70 (logs : List DailyLog) (chu : ℚ) :
    (check_hos_compliance ⟨some logs⟩ chu).tripDrivingHours = tripDrivingSum logs ∧
    (check_hos_compliance ⟨some logs⟩ chu).tripOnDutyHours = tripOnDutySum logs ∧
    (check_hos_compliance ⟨some logs⟩ chu).cycleHoursRemaining
      = max 0 (70 - (chu + tripOnDutySum logs)) ∧
    0 ≤ (check_hos_compliance ⟨some logs⟩ chu).cycleHoursRemaining ∧
    ((check_hos_compliance ⟨some logs⟩ chu).isCompliant = true
      ↔ 0 ≤ 70 - (chu + tripOnDutySum logs)) := by
  rw [check_hos_compliance_some]
  refine ⟨rfl, rfl, rfl, le_max_left 0 _, by simp [decide_eq_true_eq]⟩

/-- Claim C2: for every daily log produced by the engine — whatever the
regulation profile, start date, locations and cycle hours — the four
`totalHours` values (offDuty, sleeperBerth, driving, onDutyNotDriving) sum
to exactly 24.0. -/
theorem daily_logs_sum_to_24 (reg : Regulation) (d : ℤ) (cur pick drop : String)
    (chu : ℚ) : ((calculate_route reg d cur pick drop chu).logs).all sum24b = true := by
  simp only [calculate_route]
  exact generate_logs_all_sum24 _ _

/-- Claim C3, counterexample: in the 750-mile default scenario with
`cycleHoursUsed = 0` the engine does not produce the claimed stop sequence
`[start, pickup, rest(break), overnight, dropoff]` — the drive to pickup
(2 h) never reaches the 8 h break threshold, so day 1 instead gets a fuel
stop, and day 2 begins with a rest break before the dropoff. -/
theorem default_scenario_stops_cex :
    (calculate_route defaultRegulation 0 "Chicago, IL" "Topeka, KS" "Denver, CO" 0).stops.map
      Stop.kind ≠ [.start, .pickup, .rest, .overnight, .dropoff] := by
  simp only [calculate_route, get_route_coordinates_eq, calculate_stops_default_eq]
  decide

/-- Claim C3, amended: for the 750-mile trip (120 mi / 2 h, 630 mi / 9.5 h)
with `cycleHoursUsed = 0` under the default regulation, the engine produces
the stop sequence `[start, pickup, fuel, overnight]` on day 1 and
`[rest, dropoff]` on day 2, with day 1's driving total exactly 9.0 h (not
9.5–10 h) and every day's `totalHours` summing to 24.0. -/
theorem default_scenario_stops_actual (d : ℤ) (cur pick drop : String) :
    ((calculate_route defaultRegulation d cur pick drop 0).stops.map
        (fun s => (s.kind, s.arrival.day)) =
      [(.start, 1), (.pickup, 1), (.fuel, 1), (.overnight, 1), (.rest, 2), (.dropoff, 2)]) ∧
    ((calculate_route defaultRegulation d cur pick drop 0).logs.map
        (fun log => log.totalHours.driving) = [9, 13/2]) ∧
    ((calculate_route defaultRegulation d cur pick drop 0).logs.all sum24b = true) := by
  simp only [calculate_route, get_route_coordinates_eq, calculate_stops_default_eq]
  exact ⟨by decide, generate_logs_default_driving 0, generate_logs_all_sum24 _ _⟩

/-- Claim C4, counterexample: an unparseable `cycle_hours_used` does not
yield a validation result with an error keyed `cycle_hours_used` — the
`float()` call on line 20 of `validate_trip` raises `ValueError` before any
check runs, even with all three locations non-empty. -/
theorem validator_raises_on_unparseable_cex :
    validate_trip ⟨"Chicago, IL", "Topeka, KS", "Denver, CO", none⟩
      = Except.error "could not convert string to float" := rfl

/-- Claim C4, amended: if `cycle_hours_used` parses as a number but lies
outside [0, 70] (the validator's fixed bounds; it does not consult the
active profile), the validator returns a result with `valid = false` and an
error keyed `cycle_hours_used`, and the three location checks are still
performed independently (each location error appears iff that field is
empty); an unparseable `cycle_hours_used` instead raises. -/
theorem validator_flags_out_of_range_cycle_hours (q : ℚ) (cur pick drop : String)
    (h : q < 0 ∨ 70 < q) :
    validate_trip ⟨cur, pick, drop, some q⟩
      = Except.ok (validate_trip_checked q cur pick drop) ∧
    (validate_trip_checked q cur pick drop).valid = false ∧
    hasError (validate_trip_checked q cur pick drop) "cycle_hours_used" = true ∧
    (hasError (validate_trip_checked q cur pick drop) "current_location" = true ↔ cur = "") ∧
    (hasError (validate_trip_checked q cur pick drop) "pickup_location" = true ↔ pick = "") ∧
    (hasError (validate_trip_checked q cur pick drop) "dropoff_location" = true ↔ drop = "") := by
  refine ⟨rfl, ?_⟩
  unfold validate_trip_checked hasError
  rw [if_pos h]
  by_cases hc : cur = "" <;> by_cases hp : pick = "" <;> by_cases hd : drop = "" <;>
    simp [hc, hp, hd]

/-- Witness for the amended claim C4 at `cycle_hours_used = 71` with an
empty pickup location: the out-of-range error and the pickup error are both
recorded. -/
theorem validator_flags_out_of_range_cycle_hours_witness :
    ((71:ℚ) < 0 ∨ (70:ℚ) < 71) ∧
    (validate_trip ⟨"Chicago, IL", "", "Denver, CO", some 71⟩
      = Except.ok (validate_trip_checked 71 "Chicago, IL" "" "Denver, CO") ∧
    (validate_trip_checked 71 "Chicago, IL" "" "Denver, CO").valid = false ∧
    hasError (validate_trip_checked 71 "Chicago, IL" "" "Denver, CO") "cycle_hours_used" = true ∧
    (hasError (validate_trip_checked 71 "Chicago, IL" "" "Denver, CO") "current_location" = true
      ↔ "Chicago, IL" = "") ∧
    (hasError (validate_trip_checked 71 "Chicago, IL" "" "Denver, CO") "pickup_location" = true
      ↔ "" = "") ∧
    (hasError (validate_trip_checked 71 "Chicago, IL" "" "Denver, CO") "dropoff_location" = true
      ↔ "Denver, CO" = "")) :=
  ⟨Or.inr (by norm_num),
    validator_flags_out_of_range_cycle_hours 71 "Chicago, IL" "" "Denver, CO" (Or.inr (by norm_num))⟩

/-- Claim C5, counterexample: with no active regulation profile available,
the engine does not fail fast — `__init__` installs the built-in default
values and `calculate_route` still generates a full itinerary (6 stops, 2
daily logs). -/
theorem no_profile_still_generates_cex :
    loadRegulation none = defaultRegulation ∧
    (calculate_route (loadRegulation none) 0 "Dallas, TX" "Tulsa, OK" "Wichita, KS" 0).stops.length = 6 ∧
    (calculate_route (loadRegulation none) 0 "Dallas, TX" "Tulsa, OK" "Wichita, KS" 0).logs.length = 2 := by
  refine ⟨rfl, ?_, ?_⟩ <;>
  · simp only [loadRegulation, calculate_route, get_route_coordinates_eq,
      calculate_stops_default_eq]
    simp [generate_logs, defaultStops, List.filter]

/-- Claim C5, amended: when no active regulation profile is available, the
engine does not raise a configuration error; it silently falls back to the
built-in defaults (11 h driving, 14 h duty, 10 h rest, 70 h / 8-day cycle,
break after 8 h, 0.5 h break) and generates the itinerary normally (6
stops and 2 daily logs for every trip input). -/
theorem no_profile_falls_back_to_defaults :
    loadRegulation none = defaultRegulation ∧
    ∀ (d : ℤ) (cur pick drop : String) (chu : ℚ),
      (calculate_route (loadRegulation none) d cur pick drop chu).stops.length = 6 ∧
      (calculate_route (loadRegulation none) d cur pick drop chu).logs.length = 2 := by
  refine ⟨rfl, fun d cur pick drop chu => ⟨?_, ?_⟩⟩ <;>
  · simp only [loadRegulation, calculate_route, get_route_coordinates_eq,
      calculate_stops_default_eq]
    simp [generate_logs, defaultStops, List.filter]

/-- Claim C6, counterexample: under an active profile with a 1-hour driving
limit (a legal configuration row: all hour fields positive), the day-1
remaining driving time is negative, so the overnight stop's arrival
(10:30 AM) precedes the fuel stop's arrival (2:30 PM): the arrival labels
are not non-decreasing along the generated sequence. -/
theorem arrivals_not_monotone_cex :
    arrivalsMonoB (calculate_route shortShiftRegulation 0 "Dallas, TX" "Tulsa, OK"
      "Wichita, KS" 0).stops = false := by
  simp only [calculate_route, get_route_coordinates_eq, calculate_stops_short_eq]
  simp [arrivalsMonoB, timeLEb, shortStops]
  norm_num

/-- Claim C6, amended: for every stop sequence generated under the default
regulation profile (for any start date, locations and cycle hours), the
arrival labels (day index plus clock time) are non-decreasing along the
sequence and every stop's departure is at or after its arrival; under other
profiles this can fail. -/
theorem arrivals_monotone_default_profile (d : ℤ) (cur pick drop : String) (chu : ℚ) :
    arrivalsMonoB (calculate_route defaultRegulation d cur pick drop chu).stops = true ∧
    depGeArrB (calculate_route defaultRegulation d cur pick drop chu).stops = true := by
  simp only [calculate_route, get_route_coordinates_eq, calculate_stops_default_eq]
  constructor
  · simp [arrivalsMonoB, timeLEb, defaultStops]
    norm_num
  · simp [depGeArrB, timeLEb, defaultStops]
    norm_num

/-- Claim C7, counterexample: the claim quantifies over every trip input
with an empty pickup location, but when `cycle_hours_used` is also
unparseable the `float()` call on line 20 of `validate_trip` raises
`ValueError` before any location check runs, so no result with
`valid = false` and a `pickup_location` error is returned. -/
theorem empty_pickup_unparseable_raises_cex :
    validate_trip ⟨"Dallas, TX", "", "Austin, TX", none⟩
      = Except.error "could not convert string to float" := rfl

/-- Claim C7, amended: for every trip input whose pickup location field is
empty and whose `cycle_hours_used` parses as a number, the Trip Validator
returns `valid = false` with errors containing the key `pickup_location`;
the other two location fields contribute an error keyed by their field name
exactly when empty, and `valid` is true iff the error mapping is empty.
When `cycle_hours_used` fails to parse, the validator instead raises. -/
theorem empty_pickup_invalid (q : ℚ) (cur pick drop : String) (hp : pick = "") :
    validate_trip ⟨cur, pick, drop, some q⟩
      = Except.ok (validate_trip_checked q cur pick drop) ∧
    (validate_trip_checked q cur pick drop).valid = false ∧
    hasError (validate_trip_checked q cur pick drop) "pickup_location" = true ∧
    (hasError (validate_trip_checked q cur pick drop) "current_location" = true ↔ cur = "") ∧
    (hasError (validate_trip_checked q cur pick drop) "dropoff_location" = true ↔ drop = "") ∧
    ((validate_trip_checked q cur pick drop).valid = true
      ↔ (validate_trip_checked q cur pick drop).errors = []) := by
  subst hp
  refine ⟨rfl, ?_⟩
  unfold validate_trip_checked hasError
  by_cases hq : q < 0 ∨ 70 < q <;> by_cases hc : cur = "" <;> by_cases hd : drop = "" <;>
    simp [hq, hc, hd]

/-- Witness for the amended claim C7 with an empty pickup location, a
parseable `cycle_hours_used`, and the other fields well-formed. -/
theorem empty_pickup_invalid_witness :
    ("" : String) = "" ∧
    (validate_trip ⟨"Dallas, TX", "", "Austin, TX", some 0⟩
      = Except.ok (validate_trip_checked 0 "Dallas, TX" "" "Austin, TX") ∧
    (validate_trip_checked 0 "Dallas, TX" "" "Austin, TX").valid = false ∧
    hasError (validate_trip_checked 0 "Dallas, TX" "" "Austin, TX") "pickup_location" = true ∧
    (hasError (validate_trip_checked 0 "Dallas, TX" "" "Austin, TX") "current_location" = true
      ↔ "Dallas, TX" = "") ∧
    (hasError (validate_trip_checked 0 "Dallas, TX" "" "Austin, TX") "dropoff_location" = true
      ↔ "Austin, TX" = "") ∧
    ((validate_trip_checked 0 "Dallas, TX" "" "Austin, TX").valid = true
      ↔ (validate_trip_checked 0 "Dallas, TX" "" "Austin, TX").errors = [])) :=
  ⟨rfl, empty_pickup_invalid 0 "Dallas, TX" "" "Austin, TX" rfl⟩

/-- Claim C8: the engine is deterministic — two invocations with identical
trip inputs and the same regulation profile return identical results.  In
particular the wall-clock date read at the start of `_calculate_stops` (the
only per-call ambient input) never influences the output: only the
time-of-day component of the cursor is displayed, and it is
date-independent. -/
theorem engine_deterministic (reg : Regulation) (cur pick drop : String) (chu : ℚ)
    (d1 d2 : ℤ) :
    calculate_route reg d1 cur pick drop chu = calculate_route reg d2 cur pick drop chu := by
  simp only [calculate_route, calculate_stops, dayTime_shift, dayTime_shift_succ]

/-- Claim C9: whatever location strings are supplied (and whatever the
regulation profile), the simulated route is fixed — `totalDistance` is
always 750 miles and the route dictionary always carries the 120 mi / 2 h
and 630 mi / 9.5 h legs — and every generated stop's location is one of the
fixed placeholder names, never a supplied location string. -/
theorem route_ignores_supplied_locations (reg : Regulation) (d : ℤ)
    (cur pick drop : String) (chu : ℚ) :
    (calculate_route reg d cur pick drop chu).totalDistance = 750 ∧
    get_route_coordinates cur pick drop = simulatedRoute ∧
    ((calculate_route reg d cur pick drop chu).stops.all
        (fun s => placeholderNames.contains s.location)) = true := by
  refine ⟨by simp [calculate_route, get_route_coordinates_eq, simulatedRoute],
    get_route_coordinates_eq cur pick drop, ?_⟩
  simp only [calculate_route, get_route_coordinates_eq]
  unfold calculate_stops
  norm_num [simulatedRoute]
  by_cases hb : reg.break_required_after ≤ 2
  · simp [hb, placeholderNames]
  · simp [hb, placeholderNames]

/-- Claim C10: a `route_data` mapping with a missing or empty `logs` entry
does not make the compliance checker fail — `.get('logs', [])` defaults it,
the totals are 0, and `isCompliant` is true iff `cycleHoursUsed ≤ 70`. -/
theorem compliance_no_logs (rd : ComplianceInput) (chu : ℚ)
    (h : rd.logs = none ∨ rd.logs = some []) :
    (check_hos_compliance rd chu).tripDrivingHours = 0 ∧
    (check_hos_compliance rd chu).tripOnDutyHours = 0 ∧
    ((check_hos_compliance rd chu).isCompliant = true ↔ chu ≤ 70) := by
  have hl : rd.logs.getD [] = [] := by rcases h with h | h <;> simp [h]
  simp only [check_hos_compliance, hl, List.foldl_nil, decide_eq_true_eq]
  refine ⟨trivial, trivial, ?_⟩
  constructor <;> intro h70 <;> linarith

/-- Witness for claim C10 with a logs-free mapping and
`cycleHoursUsed = 50`. -/
theorem compliance_no_logs_witness :
    ((⟨none⟩ : ComplianceInput).logs = none ∨ (⟨none⟩ : ComplianceInput).logs = some []) ∧
    ((check_hos_compliance ⟨none⟩ 50).tripDrivingHours = 0 ∧
     (check_hos_compliance ⟨none⟩ 50).tripOnDutyHours = 0 ∧
     ((check_hos_compliance ⟨none⟩ 50).isCompliant = true ↔ (50:ℚ) ≤ 70)) :=
  ⟨Or.inl rfl, compliance_no_logs ⟨none⟩ 50 (Or.inl rfl)⟩
